import Mathlib

/-
Verification of the StreamPix-TTS repository (src/main.py).

The whole relevant logic is the FastAPI handler `gerar_audio_endpoint`
(main.py lines 47-105): validate a shared-secret key, validate the voice
selector against the VOZES dict, synthesize audio to a local temp file via
edge_tts, check the file exists, upload it to Cloudinary, return the
secure URL as plain text, and always delete the temp file in a finally
block, mapping exceptions to HTTP status codes on the way.

The two external calls (edge_tts synthesis and cloudinary upload) are
black boxes: their behaviour for the one request under consideration is an
oracle (`Env`).  The local filesystem is abstracted to the single boolean
fact that matters: whether the file named `{uuid}.mp3` exists.
-/

namespace StreamPixTTS

/-- Request body model: `class TextRequest(BaseModel)` (main.py lines 36-39). -/
structure TextRequest where
  uuid : String
  text : String
  voice_type : String
deriving Repr, DecidableEq

/-- The `VOZES` dict (main.py lines 28-31), as an association list from the
caller-facing voice selector to the provider voice identifier. -/
def VOZES : List (String × String) :=
  [("male", "pt-BR-AntonioNeural"), ("female", "pt-BR-FranciscaNeural")]

/-- Python exceptions that can arise inside the handler's try block.
`httpException` is FastAPI's HTTPException (a subclass of Exception, so it
IS caught by a bare `except Exception` clause); `cloudinaryError` is
`cloudinary.exceptions.Error`; `otherError` is any other exception. -/
inductive PyExc where
  | httpException (status : Nat) (detail : String)
  | cloudinaryError (msg : String)
  | otherError (msg : String)
deriving Repr, DecidableEq

/-- The dict returned by `cloudinary.uploader.upload` (main.py line 71). -/
structure UploadResult where
  entries : List (String × String)
deriving Repr, DecidableEq

/-- Python `dict.get`: a non-failing lookup returning None when absent. -/
def UploadResult.get (r : UploadResult) (k : String) : Option String :=
  r.entries.lookup k

/-- Oracle behaviour of the `cloudinary.uploader.upload` call: it either
returns a result dict or raises an exception. -/
inductive UploadOutcome where
  | ok (result : UploadResult)
  | raises (e : PyExc)
deriving Repr, DecidableEq

/-- Oracle for the external world during one request:
`synthExc` is the exception raised by `await gerar_audio(...)` (main.py
line 61), none if it returns normally; `fileAfterSynth` is whether the file
`{uuid}.mp3` exists once that call has finished (returned or raised);
`uploadOutcome` is what the Cloudinary upload call does if reached. -/
structure Env where
  synthExc : Option PyExc
  fileAfterSynth : Bool
  uploadOutcome : UploadOutcome
deriving Repr, DecidableEq

/-- Record of one invocation of the synthesis helper `gerar_audio`
(main.py lines 42-44): `edge_tts.Communicate(text, voice_type)` then
`tts.save(file_name)`. -/
structure SynthCall where
  text : String
  voice : String
  file_name : String
deriving Repr, DecidableEq

/-- Record of one invocation of `cloudinary.uploader.upload`
(main.py lines 71-76). -/
structure UploadCall where
  file_name : String
  resource_type : String
  public_id : String
deriving Repr, DecidableEq

/-- The HTTP-level result of the handler: either a normal return (FastAPI
renders it through PlainTextResponse, status 200) carrying the returned
value — `Option String` because `upload_result.get("secure_url")` can be
None — or an HTTPException escaping the handler, rendered by FastAPI as
status plus a JSON detail. -/
inductive Response where
  | ok (body : Option String)
  | httpError (status : Nat) (detail : String)
deriving Repr, DecidableEq

/-- HTTP status code of a `Response`. -/
def Response.status : Response → Nat
  | .ok _ => 200
  | .httpError s _ => s

/-- Everything observable about one handled request: the response, the
external calls that were made, and whether `{uuid}.mp3` exists afterwards. -/
structure Outcome where
  response : Response
  synthCalls : List SynthCall
  uploadCalls : List UploadCall
  fileExists : Bool
deriving Repr, DecidableEq

/-- The try block body (main.py lines 59-83): the synthesis call, the
`os.path.exists` check raising HTTPException 500 "Arquivo de áudio não foi
gerado." when the file is missing, and the upload call returning
`upload_result.get("secure_url")`.  Yields the block's value or escaping
exception, the upload calls made, and the file's existence at block end. -/
def tryBlock (dados : TextRequest) (file_name : String) (env : Env) :
    Except PyExc (Option String) × List UploadCall × Bool :=
  match env.synthExc with
  | some e => (.error e, [], env.fileAfterSynth)
  | none =>
    if env.fileAfterSynth = false then
      (.error (.httpException 500 "Arquivo de áudio não foi gerado."),
        [], env.fileAfterSynth)
    else
      match env.uploadOutcome with
      | .raises e =>
        (.error e, [⟨file_name, "video", dados.uuid⟩], env.fileAfterSynth)
      | .ok result =>
        (.ok (UploadResult.get result "secure_url"),
          [⟨file_name, "video", dados.uuid⟩], env.fileAfterSynth)

/-- The except clauses (main.py lines 85-100): `except
cloudinary.exceptions.Error as e` re-raises HTTPException 500 with the
provider's message embedded; the following bare `except Exception` catches
every other exception — including an HTTPException raised inside the try
block — and re-raises HTTPException 500 "Erro interno do servidor". -/
def handleExc : PyExc → Response
  | .cloudinaryError msg => .httpError 500 ("Erro no upload: " ++ msg)
  | _ => .httpError 500 "Erro interno do servidor"

/-- The handler `gerar_audio_endpoint` (main.py lines 47-105).
`apiKeyApp` models `API_KEY_APP = os.getenv("API_KEY_APP")` (line 15),
which is None when the variable is absent; the Python comparison
`key != API_KEY_APP` is false exactly when `apiKeyApp = some key`.
`fileExists0` is whether `{uuid}.mp3` exists before the request (the two
early validation failures never touch the filesystem).  The finally block
(lines 102-105) removes the file when it exists, on every path out of the
try block. -/
def gerar_audio_endpoint (apiKeyApp : Option String) (dados : TextRequest)
    (key : String) (fileExists0 : Bool) (env : Env) : Outcome :=
  if some key ≠ apiKeyApp then
    ⟨.httpError 401 "Chave inválida!", [], [], fileExists0⟩
  else
    match VOZES.lookup dados.voice_type with
    | none =>
      ⟨.httpError 400 "Voz inválida. Use 'male' ou 'female'.", [], [], fileExists0⟩
    | some voz =>
      let file_name := dados.uuid ++ ".mp3"
      let r := tryBlock dados file_name env
      ⟨(match r.1 with
         | .ok body => .ok body
         | .error e => handleExc e),
       [⟨dados.text, voz, file_name⟩],
       r.2.1,
       if r.2.2 then false else r.2.2⟩

/-- `if b then false else b` is false: the shape left by the finally
block's conditional `os.remove`. -/
theorem remove_leaves_no_file (b : Bool) : (if b then false else b) = false := by
  cases b <;> rfl

/-- Claim C2: whenever the supplied key differs from the configured access
key, the handler fails with HTTP 401 and neither the synthesis call nor the
upload call is invoked. -/
theorem bad_key_401 (apiKeyApp : Option String) (dados : TextRequest)
    (key : String) (f0 : Bool) (env : Env)
    (hk : apiKeyApp ≠ some key) :
    (gerar_audio_endpoint apiKeyApp dados key f0 env).response
        = .httpError 401 "Chave inválida!" ∧
    (gerar_audio_endpoint apiKeyApp dados key f0 env).synthCalls = [] ∧
    (gerar_audio_endpoint apiKeyApp dados key f0 env).uploadCalls = [] := by
  have h2 : some key ≠ apiKeyApp := fun h => hk h.symm
  rw [gerar_audio_endpoint, if_pos h2]
  exact ⟨rfl, rfl, rfl⟩

/-- Witness for C2 at a concrete input. -/
theorem bad_key_401_witness :
    (gerar_audio_endpoint (some "secret123") ⟨"abc-1", "Olá mundo", "female"⟩
        "wrongkey" false ⟨none, true, .ok ⟨[]⟩⟩).response
      = .httpError 401 "Chave inválida!" :=
  (bad_key_401 (some "secret123") ⟨"abc-1", "Olá mundo", "female"⟩
    "wrongkey" false ⟨none, true, .ok ⟨[]⟩⟩ (by decide)).1

/-- Claim C9: if the configured access key is absent from the environment
(API_KEY_APP loaded as None), every request fails with HTTP 401 whatever
key the caller supplies — no request can ever be authorized. -/
theorem no_key_configured_always_401 (dados : TextRequest)
    (key : String) (f0 : Bool) (env : Env) :
    (gerar_audio_endpoint none dados key f0 env).response
      = .httpError 401 "Chave inválida!" := by
  rw [gerar_audio_endpoint, if_pos (by simp)]

/-- Claim C4: authorization is checked before voice validation — when the
key mismatches AND the voice selector is invalid, the handler answers 401
(not 400), with no synthesis or upload call. -/
theorem key_checked_before_voice (apiKeyApp : Option String)
    (dados : TextRequest) (key : String) (f0 : Bool) (env : Env)
    (hk : apiKeyApp ≠ some key) (hv : VOZES.lookup dados.voice_type = none) :
    (gerar_audio_endpoint apiKeyApp dados key f0 env).response
        = .httpError 401 "Chave inválida!" ∧
    (gerar_audio_endpoint apiKeyApp dados key f0 env).response.status ≠ 400 := by
  have h2 : some key ≠ apiKeyApp := fun h => hk h.symm
  rw [gerar_audio_endpoint, if_pos h2]
  exact ⟨rfl, by simp [Response.status]⟩

/-- Witness for C4 at a concrete input with both a wrong key and an
invalid voice selector. -/
theorem key_checked_before_voice_witness :
    (gerar_audio_endpoint (some "secret123") ⟨"abc-1", "Olá mundo", "robot"⟩
        "wrongkey" false ⟨none, true, .ok ⟨[]⟩⟩).response
      = .httpError 401 "Chave inválida!" :=
  (key_checked_before_voice (some "secret123") ⟨"abc-1", "Olá mundo", "robot"⟩
    "wrongkey" false ⟨none, true, .ok ⟨[]⟩⟩ (by decide) (by decide)).1

/-- Claim C1: once the key and voice checks pass (the try block is
entered), the file `{uuid}.mp3` does not exist after the handler finishes,
on every path — success, missing file, upload failure, or any other
exception: the finally block always removes it. -/
theorem cleanup_invariant (apiKeyApp : Option String) (dados : TextRequest)
    (key : String) (f0 : Bool) (env : Env) (voz : String)
    (hk : apiKeyApp = some key) (hv : VOZES.lookup dados.voice_type = some voz) :
    (gerar_audio_endpoint apiKeyApp dados key f0 env).fileExists = false := by
  subst hk
  rw [gerar_audio_endpoint, if_neg (by simp), hv]
  exact remove_leaves_no_file _

/-- Witness for C1 at a concrete input on the upload-failure path. -/
theorem cleanup_invariant_witness :
    (gerar_audio_endpoint (some "secret123") ⟨"abc-1", "Olá mundo", "female"⟩
        "secret123" false ⟨none, true, .raises (.cloudinaryError "boom")⟩).fileExists
      = false :=
  cleanup_invariant (some "secret123") ⟨"abc-1", "Olá mundo", "female"⟩
    "secret123" false ⟨none, true, .raises (.cloudinaryError "boom")⟩
    "pt-BR-FranciscaNeural" rfl rfl

/-- Claim C3, counterexample: an invalid voice selector does NOT always
yield 400 — when the supplied key is also wrong, the key check fires first
and the handler answers 401.  Concrete input: configured key "secret123",
supplied key "wrongkey", voice_type "robot". -/
theorem bad_voice_400_counterexample :
    (gerar_audio_endpoint (some "secret123") ⟨"abc-1", "Olá mundo", "robot"⟩
        "wrongkey" false ⟨none, true, .ok ⟨[]⟩⟩).response
      = .httpError 401 "Chave inválida!" := by
  rw [gerar_audio_endpoint, if_pos (by decide)]

/-- Claim C3, amended: for every request that passes the key check and
whose voice_type is not a member of the VOZES registry, the handler fails
with HTTP 400 and neither the synthesis call nor the upload call is
invoked. -/
theorem bad_voice_400_amended (apiKeyApp : Option String)
    (dados : TextRequest) (key : String) (f0 : Bool) (env : Env)
    (hk : apiKeyApp = some key) (hv : VOZES.lookup dados.voice_type = none) :
    (gerar_audio_endpoint apiKeyApp dados key f0 env).response
        = .httpError 400 "Voz inválida. Use 'male' ou 'female'." ∧
    (gerar_audio_endpoint apiKeyApp dados key f0 env).synthCalls = [] ∧
    (gerar_audio_endpoint apiKeyApp dados key f0 env).uploadCalls = [] := by
  subst hk
  rw [gerar_audio_endpoint, if_neg (by simp), hv]
  exact ⟨rfl, rfl, rfl⟩

/-- Witness for the amended C3 at a concrete input. -/
theorem bad_voice_400_amended_witness :
    (gerar_audio_endpoint (some "secret123") ⟨"abc-1", "Olá mundo", "robot"⟩
        "secret123" false ⟨none, true, .ok ⟨[]⟩⟩).response
      = .httpError 400 "Voz inválida. Use 'male' ou 'female'." :=
  (bad_voice_400_amended (some "secret123") ⟨"abc-1", "Olá mundo", "robot"⟩
    "secret123" false ⟨none, true, .ok ⟨[]⟩⟩ rfl rfl).1

/-- Claim C5: with a valid key, the synthesis call receives the provider
voice identifier mapped by VOZES — "pt-BR-AntonioNeural" when voice_type is
"male" and "pt-BR-FranciscaNeural" when it is "female" — never the raw
selector string: the single synthesis call's voice is exactly the mapped
identifier. -/
theorem voice_mapping (apiKeyApp : Option String) (dados : TextRequest)
    (key : String) (f0 : Bool) (env : Env)
    (hk : apiKeyApp = some key) :
    (dados.voice_type = "male" →
      (gerar_audio_endpoint apiKeyApp dados key f0 env).synthCalls.map SynthCall.voice
        = ["pt-BR-AntonioNeural"]) ∧
    (dados.voice_type = "female" →
      (gerar_audio_endpoint apiKeyApp dados key f0 env).synthCalls.map SynthCall.voice
        = ["pt-BR-FranciscaNeural"]) := by
  subst hk
  constructor <;> intro hval <;>
    rw [gerar_audio_endpoint, if_neg (by simp), hval] <;> rfl

/-- Witness for C5 at a concrete "male" request. -/
theorem voice_mapping_witness :
    (gerar_audio_endpoint (some "secret123") ⟨"abc-1", "Olá mundo", "male"⟩
        "secret123" false ⟨none, true, .ok ⟨[]⟩⟩).synthCalls.map SynthCall.voice
      = ["pt-BR-AntonioNeural"] :=
  (voice_mapping (some "secret123") ⟨"abc-1", "Olá mundo", "male"⟩
    "secret123" false ⟨none, true, .ok ⟨[]⟩⟩ rfl).1 rfl

/-- Claim C6, actual code behaviour at the failing input: valid key and
voice, the synthesis call returns normally but the file was not produced.
The HTTPException 500 "Arquivo de áudio não foi gerado." raised by the
existence check is caught by the bare `except Exception` clause
(HTTPException is a subclass of Exception), so the client receives the
generic detail "Erro interno do servidor", not the audio-not-generated
message; the upload call is still never invoked. -/
theorem missing_file_behavior :
    (gerar_audio_endpoint (some "secret123") ⟨"abc-1", "Olá mundo", "female"⟩
        "secret123" false ⟨none, false, .ok ⟨[]⟩⟩)
      = ⟨.httpError 500 "Erro interno do servidor",
         [⟨"Olá mundo", "pt-BR-FranciscaNeural", "abc-1.mp3"⟩], [], false⟩ := by
  rw [gerar_audio_endpoint, if_neg (by decide)]
  rfl

/-- Claim C7: when the upload call raises a Cloudinary error, the handler
fails with HTTP 500 whose detail embeds the provider's error text, and the
temp file is still deleted before the handler finishes. -/
theorem cloudinary_error_500 (apiKeyApp : Option String)
    (dados : TextRequest) (key : String) (f0 : Bool) (env : Env)
    (voz msg : String)
    (hk : apiKeyApp = some key) (hv : VOZES.lookup dados.voice_type = some voz)
    (hs : env.synthExc = none) (hf : env.fileAfterSynth = true)
    (hu : env.uploadOutcome = .raises (.cloudinaryError msg)) :
    (gerar_audio_endpoint apiKeyApp dados key f0 env).response
        = .httpError 500 ("Erro no upload: " ++ msg) ∧
    (gerar_audio_endpoint apiKeyApp dados key f0 env).fileExists = false := by
  subst hk
  obtain ⟨se, fa, uo⟩ := env
  simp only at hs hf hu
  subst hs; subst hf; subst hu
  rw [gerar_audio_endpoint, if_neg (by simp), hv]
  exact ⟨rfl, rfl⟩

/-- Witness for C7 at a concrete input. -/
theorem cloudinary_error_500_witness :
    (gerar_audio_endpoint (some "secret123") ⟨"abc-1", "Olá mundo", "female"⟩
        "secret123" false ⟨none, true, .raises (.cloudinaryError "Invalid signature")⟩).response
      = .httpError 500 "Erro no upload: Invalid signature" :=
  (cloudinary_error_500 (some "secret123") ⟨"abc-1", "Olá mundo", "female"⟩
    "secret123" false ⟨none, true, .raises (.cloudinaryError "Invalid signature")⟩
    "pt-BR-FranciscaNeural" "Invalid signature" rfl rfl rfl rfl rfl).1

/-- Claim C8: on the fully successful path — valid key and voice, the file
is produced, the upload succeeds and its result dict carries a secure_url —
the handler returns normally (HTTP 200, plain text) with body exactly that
secure URL string, and the temp file is gone afterwards. -/
theorem success_returns_url (apiKeyApp : Option String)
    (dados : TextRequest) (key : String) (f0 : Bool) (env : Env)
    (voz url : String) (result : UploadResult)
    (hk : apiKeyApp = some key) (hv : VOZES.lookup dados.voice_type = some voz)
    (hs : env.synthExc = none) (hf : env.fileAfterSynth = true)
    (hu : env.uploadOutcome = .ok result)
    (hurl : UploadResult.get result "secure_url" = some url) :
    (gerar_audio_endpoint apiKeyApp dados key f0 env).response = .ok (some url) ∧
    (gerar_audio_endpoint apiKeyApp dados key f0 env).response.status = 200 ∧
    (gerar_audio_endpoint apiKeyApp dados key f0 env).fileExists = false := by
  subst hk
  obtain ⟨se, fa, uo⟩ := env
  simp only at hs hf hu
  subst hs; subst hf; subst hu
  rw [gerar_audio_endpoint, if_neg (by simp), hv]
  simp [tryBlock, hurl, Response.status]

/-- Witness for C8: the end-to-end scenario of the spec, key "secret123",
uuid "abc-1", text "Olá mundo", voice_type "female". -/
theorem success_returns_url_witness :
    (gerar_audio_endpoint (some "secret123") ⟨"abc-1", "Olá mundo", "female"⟩
        "secret123" false
        ⟨none, true, .ok ⟨[("secure_url", "https://res.cloudinary.com/demo/abc-1.mp3"),
                           ("public_id", "abc-1")]⟩⟩).response
      = .ok (some "https://res.cloudinary.com/demo/abc-1.mp3") :=
  (success_returns_url (some "secret123") ⟨"abc-1", "Olá mundo", "female"⟩
    "secret123" false
    ⟨none, true, .ok ⟨[("secure_url", "https://res.cloudinary.com/demo/abc-1.mp3"),
                       ("public_id", "abc-1")]⟩⟩
    "pt-BR-FranciscaNeural" "https://res.cloudinary.com/demo/abc-1.mp3"
    ⟨[("secure_url", "https://res.cloudinary.com/demo/abc-1.mp3"),
      ("public_id", "abc-1")]⟩ rfl rfl rfl rfl rfl (by decide)).1

/-- Claim C10: when the upload succeeds but its result dict has no
"secure_url" entry, the handler raises no error: `dict.get` returns None
and the handler returns normally with the absent value as its body. -/
theorem missing_secure_url_returns_none (apiKeyApp : Option String)
    (dados : TextRequest) (key : String) (f0 : Bool) (env : Env)
    (voz : String) (result : UploadResult)
    (hk : apiKeyApp = some key) (hv : VOZES.lookup dados.voice_type = some voz)
    (hs : env.synthExc = none) (hf : env.fileAfterSynth = true)
    (hu : env.uploadOutcome = .ok result)
    (hurl : UploadResult.get result "secure_url" = none) :
    (gerar_audio_endpoint apiKeyApp dados key f0 env).response = .ok none := by
  subst hk
  obtain ⟨se, fa, uo⟩ := env
  simp only at hs hf hu
  subst hs; subst hf; subst hu
  rw [gerar_audio_endpoint, if_neg (by simp), hv]
  simp [tryBlock, hurl]

/-- Witness for C10: an upload result dict carrying only public_id. -/
theorem missing_secure_url_returns_none_witness :
    (gerar_audio_endpoint (some "secret123") ⟨"abc-1", "Olá mundo", "female"⟩
        "secret123" false
        ⟨none, true, .ok ⟨[("public_id", "abc-1")]⟩⟩).response = .ok none :=
  missing_secure_url_returns_none (some "secret123")
    ⟨"abc-1", "Olá mundo", "female"⟩ "secret123" false
    ⟨none, true, .ok ⟨[("public_id", "abc-1")]⟩⟩
    "pt-BR-FranciscaNeural" ⟨[("public_id", "abc-1")]⟩
    rfl rfl rfl rfl rfl (by decide)

end StreamPixTTS
